import Mathlib

/-!
ssm-sh: target resolution, interrupt debouncing and the run-document collection loop.

A shallow embedding of `command/utils.go` (`setTargets`, `interruptHandler`,
`PrintCommandOutput`) and of `command/run-document.go`
(`RunDocumentCommand.Execute`), followed by the properties proved about them.

Conventions of the embedding.
* A Go `error` is an `Option Error`; `none` is `nil`.
* A Go slice is a `List`; the `nil` slice is `[]`.
* `os.Stdout` is a `Writer`: what was written so far and the results the
  coming `Write` calls will have.
* Collaborators outside the two files (the file system, `encoding/json`, the
  `manager` package, the OS signal delivery, the Go scheduler) are inputs.
-/

namespace SsmSh

/-! ## Errors and the standard output -/

/-- Go error values as the two files build them: `errors.New(msg)` and
`errors.Wrap(cause, msg)`. -/
inductive Error where
  | New (msg : String)
  | Wrap (cause : Error) (msg : String)
deriving DecidableEq, Repr

/-- The message of an error (`err.Error()`): a wrapped error prints its own
message, a colon and the message of its cause. -/
def Error.message : Error → String
  | .New msg => msg
  | .Wrap cause msg => msg ++ ": " ++ cause.message

/-- An `io.Writer` such as `os.Stdout`. `written` holds the strings written
so far, oldest first. `script` holds the results of the coming `Write` calls,
next call first, `none` for success; once it is used up every write
succeeds. -/
structure Writer where
  written : List String
  script : List (Option Error)
deriving DecidableEq, Repr

/-- One `fmt.Fprintf(wrt, ...)` whose formatted text is `s`: the writer
afterwards and the error returned. A failed write adds nothing to
`written`. -/
def Writer.Fprintf (wrt : Writer) (s : String) : Writer × Option Error :=
  match wrt.script with
  | [] => ({ wrt with written := wrt.written ++ [s] }, none)
  | none :: rest => ({ written := wrt.written ++ [s], script := rest }, none)
  | some err :: rest => ({ written := wrt.written, script := rest }, some err)

/-- The call `fmt.Printf(...)`: a write to standard output whose result is
discarded. -/
def Writer.Printf (wrt : Writer) (s : String) : Writer :=
  (wrt.Fprintf s).1

/-- A writer on which no coming write fails. -/
def Writer.Healthy (wrt : Writer) : Prop :=
  ∀ r ∈ wrt.script, r = none

/-! ## `setTargets` -/

/-- The fields of `TargetOptions` that `setTargets` reads. -/
structure TargetOptions where
  Targets : List String
  TargetFile : String
deriving DecidableEq, Repr

/-- What `setTargets` calls outside the two files, for an instance record
type `Instance` (`manager.Instance`): `ioutil.ReadFile`, `json.Unmarshal`
into a `[]manager.Instance`, and the method `instance.ID()`. -/
structure Resolver (Instance : Type) where
  ReadFile : String → Except Error String
  Unmarshal : String → Except Error (List Instance)
  ID : Instance → String

/-- The three things `setTargets` leaves behind: the two returned values and
standard output. -/
structure Resolved where
  targets : List String
  err : Option Error
  stdout : Writer
deriving DecidableEq, Repr

/-- The verb `%s` applied to a `[]string`: the elements separated by blanks,
in square brackets. -/
def formatStrings (xs : List String) : String :=
  "[" ++ " ".intercalate xs ++ "]"

/-- The function `setTargets` of `command/utils.go`. -/
def setTargets {Instance : Type} (fs : Resolver Instance) (stdout : Writer)
    (options : TargetOptions) : Resolved :=
  let targets : List String := []
  let fromFile : Except Error (List String) :=
    if options.TargetFile ≠ "" then
      match fs.ReadFile options.TargetFile with
      | .error err => .error err
      | .ok content =>
        match fs.Unmarshal content with
        | .error err => .error err
        | .ok instances =>
          .ok (instances.foldl (fun targets inst => targets ++ [fs.ID inst]) targets)
    else .ok targets
  match fromFile with
  | .error err => { targets := [], err := some err, stdout := stdout }
  | .ok targets =>
    let targets := options.Targets.foldl (fun targets target => targets ++ [target]) targets
    if targets.length = 0 then
      { targets := [], err := some (Error.New "no targets set"), stdout := stdout }
    else
      { targets := targets, err := none,
        stdout := stdout.Printf ("Initialized with targets: " ++ formatStrings targets ++ "\n") }

/-! ## `interruptHandler` -/

/-- A `time.Time` as `interruptHandler` holds one in `last`: the zero value
that `var last time.Time` declares, or a reading of `time.Now()`, in
nanoseconds of the process's monotonic clock. -/
inductive Time where
  | zero
  | reading (ns : Nat)
deriving DecidableEq, Repr

/-- The largest `time.Duration`, in nanoseconds. -/
def maxDuration : Int := 9223372036854775807

/-- The smallest `time.Duration`, in nanoseconds. -/
def minDuration : Int := -9223372036854775808

/-- The constant `time.Millisecond`, in nanoseconds. -/
def Millisecond : Int := 1000000

/-- The local `threshold := 50 * time.Millisecond`. -/
def threshold : Int := 50 * Millisecond

/-- The call `time.Since(last)` when the clock reads `now`. Between two
readings it is their difference, which `Time.Sub` keeps within the range of a
`Duration`. From the zero `Time` (year 1) to any reading of the clock the
distance is more than a `Duration` holds, and `Time.Sub` returns
`maxDuration`. -/
def Since (now : Nat) : Time → Int
  | .zero => maxDuration
  | .reading ns => max minDuration (min ((now : Int) - (ns : Int)) maxDuration)

/-- One raw `os.Interrupt` received from `sigterm` by the goroutine's
`for range`. `now` is the clock reading when the body runs, which is what
`time.Since(last)` sees and when the send `abort <- true` begins. `taken` is
`some d` when a receiver takes that send `d` nanoseconds later and `none`
when no receiver ever does. `lag` is the time from the completed send to the
`time.Now()` stored in `last`. -/
structure RawSignal where
  now : Nat
  taken : Option Nat
  lag : Nat
deriving DecidableEq, Repr

/-- The state of what `interruptHandler` sets up. `notified`: the
registration made by `signal.Notify(sigterm, os.Interrupt)` is in effect.
`stopCalls`: calls of `signal.Stop(sigterm)`. `sigtermClosed`, `abortClosed`:
the two channels. `panicked`: a `close` of a closed channel happened.
`exited`: the goroutine has returned. `blocked`: the goroutine waits in
`abort <- true` for a receiver that never comes. `last`: the local of that
name. `emitted`: the instants at which a send `abort <- true` began, oldest
first. `delivered`: the instants at which such a send was received. -/
structure Handler where
  notified : Bool
  stopCalls : Nat
  sigtermClosed : Bool
  abortClosed : Bool
  panicked : Bool
  exited : Bool
  blocked : Bool
  last : Time
  emitted : List Nat
  delivered : List Nat
deriving DecidableEq, Repr

/-- The three deferred calls of the goroutine, run when it returns, last
deferred first: `close(abort)`, `close(sigterm)`, `signal.Stop(sigterm)`. -/
def interruptHandler.deferred (h : Handler) : Handler :=
  let h := if h.abortClosed then { h with panicked := true } else { h with abortClosed := true }
  let h := if h.sigtermClosed then { h with panicked := true } else { h with sigtermClosed := true }
  { h with notified := false, stopCalls := h.stopCalls + 1, exited := true }

/-- The head of `for range sigterm`: the loop ends, and the goroutine
returns, when `sigterm` is closed; otherwise it waits for the next signal. -/
def interruptHandler.rangeHead (h : Handler) : Handler :=
  if h.sigtermClosed then interruptHandler.deferred h else h

/-- The body of `for range sigterm` for one received signal. -/
def interruptHandler.body (h : Handler) (s : RawSignal) : Handler :=
  if Since s.now h.last < threshold then
    h
  else
    match s.taken with
    | none => { h with emitted := h.emitted ++ [s.now], blocked := true }
    | some d =>
      { h with
        emitted := h.emitted ++ [s.now]
        delivered := h.delivered ++ [s.now + d]
        last := .reading (s.now + d + s.lag) }

/-- One raw signal delivered by the OS. `sigterm` is unbuffered and
`os/signal` never blocks on a send, so a goroutine that is not waiting at the
`for range` (it has returned, or it is held in `abort <- true`) does not get
the signal. Otherwise the body runs and control is back at the loop head. -/
def interruptHandler.receive (h : Handler) (s : RawSignal) : Handler :=
  if h.exited || h.blocked then h
  else interruptHandler.rangeHead (interruptHandler.body h s)

/-- The function `interruptHandler`: the state once it has returned its
channel, with both channels made, the registration in effect and the
goroutine at the head of its loop. -/
def interruptHandler : Handler :=
  interruptHandler.rangeHead
    { notified := true, stopCalls := 0, sigtermClosed := false, abortClosed := false,
      panicked := false, exited := false, blocked := false, last := .zero,
      emitted := [], delivered := [] }

/-- The handler after the OS has delivered the raw signals `sigs`, oldest
first. -/
def interruptHandler.run (sigs : List RawSignal) : Handler :=
  sigs.foldl interruptHandler.receive interruptHandler

/-! ## `PrintCommandOutput` -/

/-- Modelled from the spec: the record type `manager.CommandOutput`, declared
outside `src/`. The fields are the four that `PrintCommandOutput` reads; the
spec lists them as target identifier, status, optional error detail and
output payload. -/
structure CommandOutput where
  InstanceID : String
  Status : String
  Output : String
  Error : Option Error
deriving DecidableEq, Repr

/-- The function `PrintCommandOutput` of `command/utils.go`: the writer
afterwards and the error returned. The bold styling that `color` adds to
the header is not part of the text. -/
def PrintCommandOutput (wrt : Writer) (output : CommandOutput) : Writer × Option Error :=
  match wrt.Fprintf ("\n" ++ output.InstanceID ++ " - " ++ output.Status ++ ":\n") with
  | (wrt, some err) => (wrt, some err)
  | (wrt, none) =>
    let afterError : Writer × Option Error :=
      match output.Error with
      | some e => wrt.Fprintf (e.message ++ "\n")
      | none => (wrt, none)
    match afterError with
    | (wrt, some err) => (wrt, some err)
    | (wrt, none) =>
      match wrt.Fprintf (output.Output ++ "\n") with
      | (wrt, some err) => (wrt, some err)
      | (wrt, none) => (wrt, none)

/-! ## `RunDocumentCommand.Execute` -/

/-- The fields of `RunDocumentCommand` that `Execute` reads itself; `SSMOpts`
is only handed to its own `Parse`. -/
structure RunDocumentCommand where
  Name : String
  Timeout : Int
  Parameters : List (String × String)
  TargetOpts : TargetOptions
deriving DecidableEq, Repr

/-- What the channel `out` offers to a `select`: nothing, a value sent by
`m.GetCommandOutput`, or the fact that it is closed. -/
inductive OutChan where
  | idle
  | value (output : CommandOutput)
  | closed
deriving DecidableEq, Repr

/-- A communication of the `select` that can proceed: `<-ctx.Done()`,
`<-abort`, or `<-out` with what it yields (`output, true` or `nil, false`). -/
inductive Ready where
  | done
  | abort
  | output (output : CommandOutput)
  | closed
deriving DecidableEq, Repr

/-- One pass through the `select` of the collection loop, as the rest of the
program presents it. `deadline`: `ctx.Done()` is closed, the timeout has
fired. `signal`: a send on `abort` is waiting. `out`: the state of `out`.
`rand`: the scheduler's draw, which picks among the communications that can
proceed. `abortErr`: what `m.AbortCommand` returns if this pass calls it. -/
structure Iteration where
  deadline : Bool
  signal : Bool
  out : OutChan
  rand : Nat
  abortErr : Option Error
deriving DecidableEq, Repr

/-- The communications that can proceed in a pass, in the order of the
cases in the source. -/
def Iteration.ready (it : Iteration) : List Ready :=
  (if it.deadline then [Ready.done] else []) ++
  (if it.signal then [Ready.abort] else []) ++
  (match it.out with
   | .idle => []
   | .value output => [Ready.output output]
   | .closed => [Ready.closed])

/-- The choice of a `select`: none while no communication can proceed (the
statement blocks), else one of those that can, picked by the draw. -/
def Iteration.chosen (it : Iteration) : Option Ready :=
  it.ready[it.rand % it.ready.length]?

/-- Whether `Execute` has returned, and with which error. -/
inductive Return where
  | pending
  | returned (err : Option Error)
deriving DecidableEq, Repr

/-- The state of the collection loop. `interrupts`: the local of that name.
`stdout`: standard output. `printed`: the arguments of the calls of
`PrintCommandOutput`, oldest first, the failed call included.
`abortCalls`: calls of `m.AbortCommand`. `cancelCalls`: runs of the deferred
`cancel()`. `ret`: the return of `Execute`. -/
structure Collect where
  interrupts : Nat
  stdout : Writer
  printed : List CommandOutput
  abortCalls : Nat
  cancelCalls : Nat
  ret : Return
deriving DecidableEq, Repr

/-- A `return err` inside the loop: the deferred `cancel()` runs and
`Execute` returns. -/
def Collect.leave (st : Collect) (err : Option Error) : Collect :=
  { st with cancelCalls := st.cancelCalls + 1, ret := .returned err }

/-- One pass of `for { select { ... } }` in `Execute`. After a return no
pass runs. -/
def RunDocumentCommand.Execute.select (st : Collect) (it : Iteration) : Collect :=
  match st.ret with
  | .returned _ => st
  | .pending =>
    match it.chosen with
    | none => st
    | some .done => st.leave (some (Error.New "timeout reached"))
    | some .abort =>
      let st := { st with interrupts := st.interrupts + 1 }
      let st := { st with abortCalls := st.abortCalls + 1 }
      match it.abortErr with
      | some err => st.leave (some (Error.Wrap err "failed to abort command on sigterm"))
      | none =>
        if st.interrupts > 1 then st.leave (some (Error.New "interrupted by user"))
        else st
    | some .closed => st.leave none
    | some (.output output) =>
      match PrintCommandOutput st.stdout output with
      | (wrt, some err) =>
        let st := { st with stdout := wrt, printed := st.printed ++ [output] }
        st.leave (some (Error.Wrap err "failed to print output"))
      | (wrt, none) =>
        { st with stdout := wrt, printed := st.printed ++ [output] }

/-- The state in which `Execute` enters the loop: `var interrupts int`, no
call made yet. -/
def RunDocumentCommand.Execute.enter (stdout : Writer) : Collect :=
  { interrupts := 0, stdout := stdout, printed := [], abortCalls := 0,
    cancelCalls := 0, ret := .pending }

/-- The collection loop of `Execute` over the passes `its`, oldest first. The
result is `pending` when the loop is still waiting in its `select` after
them. -/
def RunDocumentCommand.Execute.loop (st : Collect) (its : List Iteration) : Collect :=
  its.foldl RunDocumentCommand.Execute.select st

/-- What `Execute` meets outside the two files: the errors of `newSession()`
and of `command.SSMOpts.Parse()`, the collaborators of `setTargets`, the
result of `m.RunCommand`, the raw signals the OS delivers once
`interruptHandler` has run, and the passes of the `select`. -/
structure World (Instance : Type) where
  newSession : Option Error
  Parse : Option Error
  fs : Resolver Instance
  RunCommand : List String → String → List (String × String) → Except Error String
  signals : List RawSignal
  iterations : List Iteration

/-- What a run of `Execute` leaves behind: the state of the loop (with
everything zero and `ret` set when `Execute` returned before it), and the
state of the interrupt handler when `interruptHandler()` was called. -/
structure Run where
  collect : Collect
  handler : Option Handler
deriving DecidableEq, Repr

/-- A `return err` of `Execute` ahead of the loop. -/
def RunDocumentCommand.Execute.early (stdout : Writer) (err : Error) : Run :=
  { collect := { RunDocumentCommand.Execute.enter stdout with ret := .returned (some err) },
    handler := none }

/-- The method `RunDocumentCommand.Execute` of `command/run-document.go`.
The timeout handed to `context.WithTimeout` reaches the loop as the
`deadline` flag of the passes, and the goroutine of `m.GetCommandOutput` as
their `out`. -/
def RunDocumentCommand.Execute {Instance : Type} (command : RunDocumentCommand)
    (world : World Instance) (stdout : Writer) : Run :=
  if command.Name = "" then
    Execute.early stdout (Error.New "No document name set to trigger")
  else
    match world.newSession with
    | some err => Execute.early stdout (Error.Wrap err "failed to create new aws session")
    | none =>
      match world.Parse with
      | some err => Execute.early stdout err
      | none =>
        let resolved := setTargets world.fs stdout command.TargetOpts
        match resolved.err with
        | some err => Execute.early resolved.stdout (Error.Wrap err "failed to set targets")
        | none =>
          let stdout := resolved.stdout.Printf "Use ctrl-c to abort the command early.\n\n"
          match world.RunCommand resolved.targets command.Name command.Parameters with
          | .error err => Execute.early stdout (Error.Wrap err "failed to run command")
          | .ok _commandID =>
            { collect := Execute.loop (Execute.enter stdout) world.iterations,
              handler := some (interruptHandler.run world.signals) }

/-! ## Vocabulary of the statements and concrete inputs -/

/-- The outcomes the poll stream offers on `out` over the passes `its`,
oldest first. -/
def offered (its : List Iteration) : List CommandOutput :=
  its.filterMap fun it =>
    match it.out with
    | .value output => some output
    | _ => none

/-- The outcomes the `select` receives from `out` over the passes `its`,
oldest first. -/
def received (its : List Iteration) : List CommandOutput :=
  its.filterMap fun it =>
    match it.chosen with
    | some (.output output) => some output
    | _ => none

/-- The strings a successful `PrintCommandOutput` writes for one record: the
header, the error text when there is an error, and the output. -/
def CommandOutput.block (output : CommandOutput) : List String :=
  ["\n" ++ output.InstanceID ++ " - " ++ output.Status ++ ":\n"] ++
  (match output.Error with
   | some e => [e.message ++ "\n"]
   | none => []) ++
  [output.Output ++ "\n"]

/-- A record used in the examples. -/
def demoOutput (id : String) : CommandOutput :=
  { InstanceID := id, Status := "Success", Output := "ok", Error := none }

/-- A standard output on which every write succeeds. -/
def demoStdout : Writer := { written := [], script := [] }

/-- A pass in which only `out` is ready, offering `output`. -/
def passOutput (output : CommandOutput) : Iteration :=
  { deadline := false, signal := false, out := .value output, rand := 0, abortErr := none }

/-- A pass in which only `out` is ready, closed. -/
def passClosed : Iteration :=
  { deadline := false, signal := false, out := .closed, rand := 0, abortErr := none }

/-- A pass in which only an abort signal waits; `m.AbortCommand` would
return `abortErr`. -/
def passAbort (abortErr : Option Error) : Iteration :=
  { deadline := false, signal := true, out := .idle, rand := 0, abortErr := abortErr }

/-- A pass in which only the deadline has fired. -/
def passDeadline : Iteration :=
  { deadline := true, signal := false, out := .idle, rand := 0, abortErr := none }

/-- A pass in which the deadline has fired and `out` offers `output`, and
the scheduler's draw falls on `out`. -/
def passDeadlineAndOutput (output : CommandOutput) : Iteration :=
  { deadline := true, signal := false, out := .value output, rand := 1, abortErr := none }

/-- A pass in which the deadline has fired and an abort signal waits, and the
scheduler's draw falls on `abort`. -/
def passDeadlineAndAbort : Iteration :=
  { deadline := true, signal := true, out := .idle, rand := 1, abortErr := none }

/-- A pass in which the deadline has fired and `out` offers `output`, and
the scheduler's draw falls on `ctx.Done()`. -/
def passDeadlineTaken (output : CommandOutput) : Iteration :=
  { deadline := true, signal := false, out := .value output, rand := 0, abortErr := none }

/-- A standard output whose third write fails: the confirmation line of
`setTargets` and the hint of `Execute` are written, the header of the first
record is not. -/
def demoBrokenStdout : Writer :=
  { written := [], script := [none, none, some (Error.New "broken pipe")] }

/-- A file system with one target file, `targets.json`, holding the records
`i-1` and `i-2`; a record is its own identifier. Reading any other file
fails, and the file `broken.json` is read and does not parse. -/
def demoResolver : Resolver String :=
  { ReadFile := fun path =>
      if path = "targets.json" then .ok "[i-1 i-2]"
      else if path = "empty.json" then .ok "[]"
      else if path = "broken.json" then .ok "oops"
      else .error (Error.New "no such file")
    Unmarshal := fun content =>
      if content = "[i-1 i-2]" then .ok ["i-1", "i-2"]
      else if content = "[]" then .ok []
      else .error (Error.New "invalid character")
    ID := fun inst => inst }

/-- A run-document command on the explicit target `i-9`. -/
def demoCommand : RunDocumentCommand :=
  { Name := "AWS-RunShellScript", Timeout := 30, Parameters := [],
    TargetOpts := { Targets := ["i-9"], TargetFile := "" } }

/-- A world in which the session, the options and the submission succeed,
the OS delivers `signals` and the `select` sees the passes `its`. -/
def demoWorld (signals : List RawSignal) (its : List Iteration) : World String :=
  { newSession := none, Parse := none, fs := demoResolver,
    RunCommand := fun _ _ _ => .ok "command-1",
    signals := signals, iterations := its }

/-! ## Properties of `setTargets` -/

/-- Appending the images one at a time, as the two `for ... append` loops
do, is appending the mapped list. -/
theorem foldl_append_singleton {α β : Type} (f : α → β) (xs : List α) (acc : List β) :
    xs.foldl (fun targets x => targets ++ [f x]) acc = acc ++ xs.map f := by
  induction xs generalizing acc with
  | nil => simp
  | cons x xs ih => simp [ih]

/-- The two returned values of `setTargets` when no target file is named. -/
theorem setTargets_no_file {Instance : Type} (fs : Resolver Instance) (stdout : Writer)
    (options : TargetOptions) (hfile : options.TargetFile = "") :
    ((setTargets fs stdout options).targets, (setTargets fs stdout options).err) =
      if options.Targets = [] then ([], some (Error.New "no targets set"))
      else (options.Targets, none) := by
  have h := foldl_append_singleton (fun t : String => t) options.Targets []
  simp only [List.map_id_fun, id_eq, List.nil_append] at h
  by_cases hT : options.Targets = [] <;> simp [setTargets, hfile, hT, h]

/-- The two returned values of `setTargets` when the target file cannot be
read. -/
theorem setTargets_read_error {Instance : Type} (fs : Resolver Instance) (stdout : Writer)
    (options : TargetOptions) (e : Error) (hfile : options.TargetFile ≠ "")
    (hread : fs.ReadFile options.TargetFile = .error e) :
    ((setTargets fs stdout options).targets, (setTargets fs stdout options).err) =
      ([], some e) := by
  simp [setTargets, hfile, hread]

/-- The two returned values of `setTargets` when the target file is read and
does not parse. -/
theorem setTargets_parse_error {Instance : Type} (fs : Resolver Instance) (stdout : Writer)
    (options : TargetOptions) (content : String) (e : Error) (hfile : options.TargetFile ≠ "")
    (hread : fs.ReadFile options.TargetFile = .ok content)
    (hparse : fs.Unmarshal content = .error e) :
    ((setTargets fs stdout options).targets, (setTargets fs stdout options).err) =
      ([], some e) := by
  simp [setTargets, hfile, hread, hparse]

/-- The two returned values of `setTargets` when the target file is read and
parses. -/
theorem setTargets_parsed {Instance : Type} (fs : Resolver Instance) (stdout : Writer)
    (options : TargetOptions) (content : String) (instances : List Instance)
    (hfile : options.TargetFile ≠ "")
    (hread : fs.ReadFile options.TargetFile = .ok content)
    (hparse : fs.Unmarshal content = .ok instances) :
    ((setTargets fs stdout options).targets, (setTargets fs stdout options).err) =
      if instances.map fs.ID ++ options.Targets = [] then
        ([], some (Error.New "no targets set"))
      else (instances.map fs.ID ++ options.Targets, none) := by
  have h1 := foldl_append_singleton fs.ID instances []
  have h2 := foldl_append_singleton (fun t : String => t) options.Targets
    (instances.map fs.ID)
  simp only [List.map_id_fun, id_eq, List.nil_append] at h1 h2
  by_cases hT : instances.map fs.ID ++ options.Targets = []
  · have hT2 := hT
    simp only [List.append_eq_nil, List.map_eq_nil_iff] at hT2
    simp [setTargets, hfile, hread, hparse, hT2.1, hT2.2]
  · have hlen : ¬ (instances.length + options.Targets.length = 0) := by
      intro h0
      apply hT
      have : instances = [] ∧ options.Targets = [] := by
        constructor
        · exact List.eq_nil_of_length_eq_zero (by omega)
        · exact List.eq_nil_of_length_eq_zero (by omega)
      simp [this.1, this.2]
    simp [setTargets, hfile, hread, hparse, h1, h2, hT, hlen]

/-- C4: whenever `setTargets` succeeds, what it returns is the identifiers of
the records parsed from the target file, in file order, followed by the
explicit targets in listed order, duplicates kept, so N file records and M
explicit identifiers give N+M targets; without a target file the result is
the explicit list, and a non-empty explicit list without a target file always
succeeds with exactly that list. A success with a target file named means the
file was read and parsed. -/
theorem setTargets_file_then_explicit {Instance : Type} (fs : Resolver Instance)
    (stdout : Writer) (options : TargetOptions) :
    (∀ content instances, options.TargetFile ≠ "" →
      fs.ReadFile options.TargetFile = .ok content →
      fs.Unmarshal content = .ok instances →
      (setTargets fs stdout options).err = none →
        (setTargets fs stdout options).targets = instances.map fs.ID ++ options.Targets ∧
        (setTargets fs stdout options).targets.length
          = instances.length + options.Targets.length) ∧
    (options.TargetFile = "" → (setTargets fs stdout options).err = none →
      (setTargets fs stdout options).targets = options.Targets) ∧
    (options.TargetFile = "" → options.Targets ≠ [] →
      (setTargets fs stdout options).err = none ∧
      (setTargets fs stdout options).targets = options.Targets) ∧
    (options.TargetFile ≠ "" → (setTargets fs stdout options).err = none →
      ∃ content instances, fs.ReadFile options.TargetFile = .ok content ∧
        fs.Unmarshal content = .ok instances ∧
        (setTargets fs stdout options).targets = instances.map fs.ID ++ options.Targets) := by
  refine ⟨?_, ?_, ?_, ?_⟩
  · intro content instances hfile hread hparse hok
    have h := setTargets_parsed fs stdout options content instances hfile hread hparse
    by_cases hT : instances.map fs.ID ++ options.Targets = []
    · rw [if_pos hT] at h
      have := (Prod.mk.inj h).2
      rw [hok] at this
      exact absurd this (by simp)
    · rw [if_neg hT] at h
      have ht := (Prod.mk.inj h).1
      rw [ht]
      simp
  · intro hfile hok
    have h := setTargets_no_file fs stdout options hfile
    by_cases hT : options.Targets = []
    · rw [if_pos hT] at h
      have := (Prod.mk.inj h).2
      rw [hok] at this
      exact absurd this (by simp)
    · rw [if_neg hT] at h
      exact (Prod.mk.inj h).1
  · intro hfile hT
    have h := setTargets_no_file fs stdout options hfile
    rw [if_neg hT] at h
    exact ⟨(Prod.mk.inj h).2, (Prod.mk.inj h).1⟩
  · intro hfile hok
    cases hr : fs.ReadFile options.TargetFile with
    | error e =>
      have := (Prod.mk.inj (setTargets_read_error fs stdout options e hfile hr)).2
      rw [hok] at this
      exact absurd this (by simp)
    | ok content =>
      cases hp : fs.Unmarshal content with
      | error e =>
        have := (Prod.mk.inj (setTargets_parse_error fs stdout options content e hfile hr hp)).2
        rw [hok] at this
        exact absurd this (by simp)
      | ok instances =>
        have h := setTargets_parsed fs stdout options content instances hfile hr hp
        by_cases hT : instances.map fs.ID ++ options.Targets = []
        · rw [if_pos hT] at h
          have := (Prod.mk.inj h).2
          rw [hok] at this
          exact absurd this (by simp)
        · rw [if_neg hT] at h
          exact ⟨content, instances, rfl, hp, (Prod.mk.inj h).1⟩

/-- C5: `setTargets` fails exactly when a target file is named and cannot be
read, or is read and does not parse (whatever the explicit targets are), or
when the file identifiers followed by the explicit identifiers make an empty
list, which is the error `no targets set`; in every other case it succeeds.
Every failure returns the nil list and every success a non-empty one. -/
theorem setTargets_error_cases {Instance : Type} (fs : Resolver Instance)
    (stdout : Writer) (options : TargetOptions) :
    (∀ e, options.TargetFile ≠ "" → fs.ReadFile options.TargetFile = .error e →
      (setTargets fs stdout options).err = some e) ∧
    (∀ content e, options.TargetFile ≠ "" →
      fs.ReadFile options.TargetFile = .ok content → fs.Unmarshal content = .error e →
      (setTargets fs stdout options).err = some e) ∧
    (∀ content instances, options.TargetFile ≠ "" →
      fs.ReadFile options.TargetFile = .ok content →
      fs.Unmarshal content = .ok instances →
      (instances.map fs.ID ++ options.Targets = [] →
        (setTargets fs stdout options).err = some (Error.New "no targets set")) ∧
      (instances.map fs.ID ++ options.Targets ≠ [] →
        (setTargets fs stdout options).err = none)) ∧
    (options.TargetFile = "" →
      (options.Targets = [] →
        (setTargets fs stdout options).err = some (Error.New "no targets set")) ∧
      (options.Targets ≠ [] → (setTargets fs stdout options).err = none)) ∧
    ((setTargets fs stdout options).err ≠ none →
      (setTargets fs stdout options).targets = []) ∧
    ((setTargets fs stdout options).err = none →
      (setTargets fs stdout options).targets ≠ []) := by
  have hread := setTargets_read_error fs stdout options
  have hparse := setTargets_parse_error fs stdout options
  have hparsed := setTargets_parsed fs stdout options
  have hnone := setTargets_no_file fs stdout options
  refine ⟨?_, ?_, ?_, ?_, ?_, ?_⟩
  · intro e hf hr
    exact (Prod.mk.inj (hread e hf hr)).2
  · intro content e hf hr hp
    exact (Prod.mk.inj (hparse content e hf hr hp)).2
  · intro content instances hf hr hp
    have h := hparsed content instances hf hr hp
    constructor
    · intro hT
      rw [if_pos hT] at h
      exact (Prod.mk.inj h).2
    · intro hT
      rw [if_neg hT] at h
      exact (Prod.mk.inj h).2
  · intro hf
    have h := hnone hf
    constructor
    · intro hT
      rw [if_pos hT] at h
      exact (Prod.mk.inj h).2
    · intro hT
      rw [if_neg hT] at h
      exact (Prod.mk.inj h).2
  · intro herr
    by_cases hf : options.TargetFile = ""
    · have h := hnone hf
      by_cases hT : options.Targets = []
      · rw [if_pos hT] at h
        exact (Prod.mk.inj h).1
      · rw [if_neg hT] at h
        exact absurd (Prod.mk.inj h).2 herr
    · cases hr : fs.ReadFile options.TargetFile with
      | error e => exact (Prod.mk.inj (hread e hf hr)).1
      | ok content =>
        cases hp : fs.Unmarshal content with
        | error e => exact (Prod.mk.inj (hparse content e hf hr hp)).1
        | ok instances =>
          have h := hparsed content instances hf hr hp
          by_cases hT : instances.map fs.ID ++ options.Targets = []
          · rw [if_pos hT] at h
            exact (Prod.mk.inj h).1
          · rw [if_neg hT] at h
            exact absurd (Prod.mk.inj h).2 herr
  · intro hok
    by_cases hf : options.TargetFile = ""
    · have h := hnone hf
      by_cases hT : options.Targets = []
      · rw [if_pos hT] at h
        have := (Prod.mk.inj h).2
        rw [hok] at this
        exact absurd this (by simp)
      · rw [if_neg hT] at h
        rw [(Prod.mk.inj h).1]
        exact hT
    · cases hr : fs.ReadFile options.TargetFile with
      | error e =>
        have := (Prod.mk.inj (hread e hf hr)).2
        rw [hok] at this
        exact absurd this (by simp)
      | ok content =>
        cases hp : fs.Unmarshal content with
        | error e =>
          have := (Prod.mk.inj (hparse content e hf hr hp)).2
          rw [hok] at this
          exact absurd this (by simp)
        | ok instances =>
          have h := hparsed content instances hf hr hp
          by_cases hT : instances.map fs.ID ++ options.Targets = []
          · rw [if_pos hT] at h
            have := (Prod.mk.inj h).2
            rw [hok] at this
            exact absurd this (by simp)
          · rw [if_neg hT] at h
            rw [(Prod.mk.inj h).1]
            exact hT

/-! ## Properties of `interruptHandler` -/

/-- The handler after one more raw signal. -/
theorem interruptHandler.run_snoc (pre : List RawSignal) (s : RawSignal) :
    interruptHandler.run (pre ++ [s]) = interruptHandler.receive (interruptHandler.run pre) s := by
  simp [interruptHandler.run, List.foldl_append]

/-- The loop body touches neither the channels nor the registration. -/
theorem interruptHandler.body_frame (h : Handler) (s : RawSignal) :
    (interruptHandler.body h s).sigtermClosed = h.sigtermClosed ∧
    (interruptHandler.body h s).exited = h.exited ∧
    (interruptHandler.body h s).notified = h.notified ∧
    (interruptHandler.body h s).stopCalls = h.stopCalls ∧
    (interruptHandler.body h s).abortClosed = h.abortClosed ∧
    (interruptHandler.body h s).panicked = h.panicked := by
  unfold interruptHandler.body
  split
  · simp
  · cases s.taken <;> simp

/-- With `sigterm` open, a received signal runs the body and nothing else. -/
theorem interruptHandler.receive_open (h : Handler) (s : RawSignal)
    (ho : h.sigtermClosed = false) :
    interruptHandler.receive h s =
      if h.exited || h.blocked then h else interruptHandler.body h s := by
  unfold interruptHandler.receive interruptHandler.rangeHead
  rw [(interruptHandler.body_frame h s).1, ho]
  simp

/-- The goroutine never leaves its loop: `sigterm` stays open, so the
deferred calls never run. -/
theorem interruptHandler.run_alive (sigs : List RawSignal) :
    (interruptHandler.run sigs).sigtermClosed = false ∧
    (interruptHandler.run sigs).exited = false ∧
    (interruptHandler.run sigs).notified = true ∧
    (interruptHandler.run sigs).stopCalls = 0 ∧
    (interruptHandler.run sigs).abortClosed = false ∧
    (interruptHandler.run sigs).panicked = false := by
  induction sigs using List.reverseRecOn with
  | nil => decide
  | append_singleton pre s ih =>
    rw [interruptHandler.run_snoc, interruptHandler.receive_open _ _ ih.1]
    split
    · exact ih
    · obtain ⟨b1, b2, b3, b4, b5, b6⟩ := interruptHandler.body_frame (interruptHandler.run pre) s
      rw [b1, b2, b3, b4, b5, b6]
      exact ih

/-- The handler after one more raw signal, the goroutine waiting at its
loop. -/
theorem interruptHandler.run_snoc_body (pre : List RawSignal) (s : RawSignal)
    (hb : (interruptHandler.run pre).blocked = false) :
    interruptHandler.run (pre ++ [s]) = interruptHandler.body (interruptHandler.run pre) s := by
  rw [interruptHandler.run_snoc,
    interruptHandler.receive_open _ _ (interruptHandler.run_alive pre).1,
    (interruptHandler.run_alive pre).2.1, hb]
  simp

/-- The handler after one more raw signal, the goroutine held in a send. -/
theorem interruptHandler.run_snoc_blocked (pre : List RawSignal) (s : RawSignal)
    (hb : (interruptHandler.run pre).blocked = true) :
    interruptHandler.run (pre ++ [s]) = interruptHandler.run pre := by
  rw [interruptHandler.run_snoc,
    interruptHandler.receive_open _ _ (interruptHandler.run_alive pre).1, hb]
  simp

/-- A signal is sent on when the elapsed time reaches the threshold. -/
theorem Since_ge_threshold (now l : Nat) :
    ¬ (Since now (.reading l) < threshold) ↔ (l : Int) + threshold ≤ now := by
  simp only [Since, threshold, Millisecond, minDuration, maxDuration]
  omega

/-- From the zero time the elapsed time is never below the threshold. -/
theorem Since_zero (now : Nat) : ¬ (Since now .zero < threshold) := by
  simp only [Since, threshold, Millisecond, maxDuration]
  omega

/-- While the goroutine is not held in a send, `last` is unset exactly
before the first raw signal. -/
theorem interruptHandler.last_zero_iff (sigs : List RawSignal)
    (hb : (interruptHandler.run sigs).blocked = false) :
    (interruptHandler.run sigs).last = .zero ↔ sigs = [] := by
  induction sigs using List.reverseRecOn with
  | nil => simp [interruptHandler.run, interruptHandler, interruptHandler.rangeHead]
  | append_singleton pre s ih =>
    have hne : pre ++ [s] ≠ [] := by simp
    simp only [hne, iff_false]
    cases hpb : (interruptHandler.run pre).blocked with
    | true =>
      rw [interruptHandler.run_snoc_blocked pre s hpb] at hb
      rw [hpb] at hb
      exact absurd hb (by simp)
    | false =>
      rw [interruptHandler.run_snoc_body pre s hpb] at hb ⊢
      have ih := ih hpb
      unfold interruptHandler.body at hb ⊢
      split
      · rename_i hlt
        intro hz
        rw [hz] at hlt
        exact Since_zero _ hlt
      · cases ht : s.taken with
        | none =>
          rename_i hlt
          rw [if_neg hlt, ht] at hb
          simp at hb
        | some d => simp

/-- The invariant behind the debounce: the sends begun and the sends
received are each spaced by the threshold, and while the goroutine is not
held in a send, `last` is a reading no earlier than any of them. -/
theorem interruptHandler.run_spaced (sigs : List RawSignal) :
    List.Pairwise (fun a b : Nat => (a : Int) + threshold ≤ b)
      (interruptHandler.run sigs).emitted ∧
    List.Pairwise (fun a b : Nat => (a : Int) + threshold ≤ b)
      (interruptHandler.run sigs).delivered ∧
    ((interruptHandler.run sigs).blocked = false →
      ∀ e, e ∈ (interruptHandler.run sigs).emitted ∨ e ∈ (interruptHandler.run sigs).delivered →
        ∃ l, (interruptHandler.run sigs).last = .reading l ∧ e ≤ l) := by
  induction sigs using List.reverseRecOn with
  | nil => simp [interruptHandler.run, interruptHandler, interruptHandler.rangeHead]
  | append_singleton pre s ih =>
    obtain ⟨he, hd, hl⟩ := ih
    cases hpb : (interruptHandler.run pre).blocked with
    | true =>
      rw [interruptHandler.run_snoc_blocked pre s hpb]
      exact ⟨he, hd, hl⟩
    | false =>
      have hl := hl hpb
      rw [interruptHandler.run_snoc_body pre s hpb]
      unfold interruptHandler.body
      split
      · exact ⟨he, hd, fun _ => hl⟩
      · rename_i hge
        have key : ∀ e, e ∈ (interruptHandler.run pre).emitted ∨
            e ∈ (interruptHandler.run pre).delivered → (e : Int) + threshold ≤ s.now := by
          intro e hmem
          obtain ⟨l, hlast, hle⟩ := hl e hmem
          rw [hlast] at hge
          have := (Since_ge_threshold s.now l).1 hge
          omega
        have hpos : (0 : Int) ≤ threshold := by
          simp only [threshold, Millisecond]; omega
        cases s.taken with
        | none =>
          refine ⟨?_, hd, ?_⟩
          · simp only [List.pairwise_append, List.pairwise_cons, List.Pairwise.nil,
              List.mem_singleton, List.not_mem_nil, false_implies, implies_true, and_true,
              true_and]
            refine ⟨he, ?_⟩
            intro a ha b hb
            rw [hb]
            exact key a (Or.inl ha)
          · simp
        | some d =>
          refine ⟨?_, ?_, ?_⟩
          · simp only [List.pairwise_append, List.pairwise_cons, List.Pairwise.nil,
              List.mem_singleton, List.not_mem_nil, false_implies, implies_true, and_true,
              true_and]
            refine ⟨he, ?_⟩
            intro a ha b hb
            rw [hb]
            exact key a (Or.inl ha)
          · simp only [List.pairwise_append, List.pairwise_cons, List.Pairwise.nil,
              List.mem_singleton, List.not_mem_nil, false_implies, implies_true, and_true,
              true_and]
            refine ⟨hd, ?_⟩
            intro a ha b hb
            rw [hb]
            have := key a (Or.inr ha)
            push_cast
            omega
          · intro _ e hmem
            refine ⟨s.now + d + s.lag, rfl, ?_⟩
            simp only [List.mem_append, List.mem_singleton] at hmem
            rcases hmem with (h1 | h1) | (h1 | h1)
            · have := key e (Or.inl h1); omega
            · omega
            · have := key e (Or.inr h1); omega
            · omega

/-- C8: whatever raw interrupt signals arrive, and whenever they arrive, no
two logical AbortSignals of `interruptHandler` are closer together than the
debounce threshold of 50ms: of any two sends on `abort`, the later begins at
least 50ms after the earlier began, and is received at least 50ms after the
earlier was received. In particular consecutive emissions are at least 50ms
apart. -/
theorem interruptHandler_emissions_spaced (sigs : List RawSignal) :
    threshold = 50000000 ∧
    List.Pairwise (fun a b : Nat => (a : Int) + threshold ≤ b)
      (interruptHandler.run sigs).emitted ∧
    List.Pairwise (fun a b : Nat => (a : Int) + threshold ≤ b)
      (interruptHandler.run sigs).delivered :=
  ⟨by decide, (interruptHandler.run_spaced sigs).1, (interruptHandler.run_spaced sigs).2.1⟩

/-- C9: the filter of `interruptHandler`. A raw signal that reaches the loop
is sent on exactly when it is the first raw signal (`last` is still unset)
or the clock is at least the threshold past `last`, the time stored after
the previous send; a raw signal that is not sent on changes nothing, `last`
included. And of two raw signals fewer than 50ms apart, delivered to a fresh
handler, exactly one is sent on, the first, and the second is dropped. -/
theorem interruptHandler_filter :
    (∀ (pre : List RawSignal) (s : RawSignal),
      (interruptHandler.run pre).blocked = false →
      ((interruptHandler.run (pre ++ [s])).emitted
          = (interruptHandler.run pre).emitted ++ [s.now] ↔
        (pre = [] ∨ ∃ l, (interruptHandler.run pre).last = .reading l ∧
          (l : Int) + threshold ≤ s.now)) ∧
      ((interruptHandler.run (pre ++ [s])).emitted
          ≠ (interruptHandler.run pre).emitted ++ [s.now] →
        interruptHandler.run (pre ++ [s]) = interruptHandler.run pre)) ∧
    (∀ s1 s2 : RawSignal, (s2.now : Int) - s1.now < threshold →
      (interruptHandler.run [s1]).emitted = [s1.now] ∧
      (interruptHandler.run [s1, s2]).emitted = [s1.now] ∧
      interruptHandler.run [s1, s2] = interruptHandler.run [s1]) := by
  constructor
  · intro pre s hb
    rw [interruptHandler.run_snoc_body pre s hb]
    have hz := interruptHandler.last_zero_iff pre hb
    unfold interruptHandler.body
    split
    · rename_i hlt
      refine ⟨?_, fun _ => rfl⟩
      constructor
      · intro h
        have := congrArg List.length h
        simp at this
      · rintro (h | ⟨l, hl, hge⟩)
        · rw [hz.2 h] at hlt
          exact absurd hlt (Since_zero _)
        · rw [hl] at hlt
          exact absurd hlt ((Since_ge_threshold _ _).2 hge)
    · rename_i hge
      have hemit : (match s.taken with
          | none => { interruptHandler.run pre with
              emitted := (interruptHandler.run pre).emitted ++ [s.now], blocked := true }
          | some d => { interruptHandler.run pre with
              emitted := (interruptHandler.run pre).emitted ++ [s.now]
              delivered := (interruptHandler.run pre).delivered ++ [s.now + d]
              last := .reading (s.now + d + s.lag) }).emitted
          = (interruptHandler.run pre).emitted ++ [s.now] := by
        cases s.taken <;> rfl
      refine ⟨?_, fun h => absurd hemit h⟩
      simp only [hemit, true_iff]
      cases hl : (interruptHandler.run pre).last with
      | zero => exact Or.inl (hz.1 hl)
      | reading l =>
        rw [hl] at hge
        exact Or.inr ⟨l, rfl, (Since_ge_threshold _ _).1 hge⟩
  · intro s1 s2 hclose
    have h1 : interruptHandler.run [s1] = interruptHandler.body interruptHandler s1 := by
      have := interruptHandler.run_snoc_body [] s1 (by decide)
      simpa [interruptHandler.run] using this
    have h1e : (interruptHandler.run [s1]).emitted = [s1.now] := by
      rw [h1]; unfold interruptHandler.body
      rw [if_neg (by exact Since_zero _)]
      cases s1.taken <;> rfl
    have h2 : interruptHandler.run [s1, s2] = interruptHandler.run [s1] := by
      cases hb : (interruptHandler.run [s1]).blocked with
      | true => exact interruptHandler.run_snoc_blocked [s1] s2 hb
      | false =>
        have := interruptHandler.run_snoc_body [s1] s2 hb
        simp only [List.singleton_append] at this
        rw [this]
        unfold interruptHandler.body
        rw [if_pos]
        rw [h1] at hb ⊢
        unfold interruptHandler.body at hb ⊢
        rw [if_neg (by exact Since_zero _)] at hb ⊢
        cases ht : s1.taken with
        | none => rw [ht] at hb; simp at hb
        | some d =>
          simp only [Since, threshold, Millisecond, minDuration, maxDuration] at hclose ⊢
          push_cast
          omega
    rw [h2]
    exact ⟨h1e, h1e, rfl⟩

/-! ## Properties of the collection loop -/

/-- A write to a healthy writer succeeds, adds its text and leaves the
writer healthy. -/
theorem Writer.Fprintf_healthy (wrt : Writer) (s : String) (h : wrt.Healthy) :
    (wrt.Fprintf s).2 = none ∧ (wrt.Fprintf s).1.written = wrt.written ++ [s] ∧
    (wrt.Fprintf s).1.Healthy := by
  unfold Writer.Fprintf
  cases hs : wrt.script with
  | nil => exact ⟨rfl, rfl, fun r hr => h r (by simp [hs] at hr)⟩
  | cons r rest =>
    have hr : r = none := h r (by simp [hs])
    subst hr
    refine ⟨rfl, rfl, fun r hr => h r ?_⟩
    rw [hs]
    exact List.mem_cons_of_mem _ hr

/-- On a healthy writer `PrintCommandOutput` succeeds, writes the block of
the record and leaves the writer healthy. -/
theorem PrintCommandOutput_healthy (wrt : Writer) (output : CommandOutput) (h : wrt.Healthy) :
    (PrintCommandOutput wrt output).2 = none ∧
    (PrintCommandOutput wrt output).1.written = wrt.written ++ output.block ∧
    (PrintCommandOutput wrt output).1.Healthy := by
  obtain ⟨a1, a2, a3⟩ := Writer.Fprintf_healthy wrt
    ("\n" ++ output.InstanceID ++ " - " ++ output.Status ++ ":\n") h
  unfold PrintCommandOutput CommandOutput.block
  rcases hf1 : wrt.Fprintf ("\n" ++ output.InstanceID ++ " - " ++ output.Status ++ ":\n")
    with ⟨w1, r1⟩
  rw [hf1] at a1 a2 a3
  simp only at a1 a2 a3
  subst a1
  simp only
  cases hE : output.Error with
  | none =>
    simp only
    obtain ⟨b1, b2, b3⟩ := Writer.Fprintf_healthy w1 (output.Output ++ "\n") a3
    rcases hf2 : w1.Fprintf (output.Output ++ "\n") with ⟨w2, r2⟩
    rw [hf2] at b1 b2 b3
    simp only at b1 b2 b3
    subst b1
    simp only
    refine ⟨trivial, ?_, b3⟩
    rw [b2, a2]
    simp
  | some e =>
    simp only
    obtain ⟨c1, c2, c3⟩ := Writer.Fprintf_healthy w1 (e.message ++ "\n") a3
    rcases hf3 : w1.Fprintf (e.message ++ "\n") with ⟨w3, r3⟩
    rw [hf3] at c1 c2 c3
    simp only at c1 c2 c3
    subst c1
    simp only
    obtain ⟨b1, b2, b3⟩ := Writer.Fprintf_healthy w3 (output.Output ++ "\n") c3
    rcases hf2 : w3.Fprintf (output.Output ++ "\n") with ⟨w2, r2⟩
    rw [hf2] at b1 b2 b3
    simp only at b1 b2 b3
    subst b1
    simp only
    refine ⟨trivial, ?_, b3⟩
    rw [b2, c2, a2]
    simp

open RunDocumentCommand

/-- After a return no pass changes anything. -/
theorem Execute.select_returned (st : Collect) (it : Iteration) (err : Option Error)
    (h : st.ret = .returned err) : Execute.select st it = st := by
  unfold Execute.select
  rw [h]

/-- After a return the loop is over. -/
theorem Execute.loop_returned (st : Collect) (its : List Iteration) (err : Option Error)
    (h : st.ret = .returned err) : Execute.loop st its = st := by
  induction its with
  | nil => rfl
  | cons it rest ih =>
    simp only [Execute.loop, List.foldl_cons] at ih ⊢
    rw [Execute.select_returned st it err h]
    exact ih

/-- The loop over passes followed by more passes. -/
theorem Execute.loop_append (st : Collect) (pre rest : List Iteration) :
    Execute.loop st (pre ++ rest) = Execute.loop (Execute.loop st pre) rest := by
  simp [Execute.loop, List.foldl_append]

/-- The loop over passes, one pass, and more passes. -/
theorem Execute.loop_step (st : Collect) (pre : List Iteration) (it : Iteration)
    (rest : List Iteration) :
    Execute.loop st (pre ++ it :: rest)
      = Execute.loop (Execute.select (Execute.loop st pre) it) rest := by
  simp [Execute.loop, List.foldl_append]

/-- A loop still waiting after some passes was waiting after fewer. -/
theorem Execute.pending_before (st : Collect) (pre rest : List Iteration)
    (h : (Execute.loop st (pre ++ rest)).ret = .pending) :
    (Execute.loop st pre).ret = .pending := by
  cases hr : (Execute.loop st pre).ret with
  | pending => rfl
  | returned err =>
    rw [Execute.loop_append, Execute.loop_returned _ rest err hr, hr] at h
    exact absurd h (by simp)

/-- A pass in which the `select` blocks changes nothing. -/
theorem Execute.select_blocked (st : Collect) (it : Iteration) (hc : it.chosen = none) :
    Execute.select st it = st := by
  unfold Execute.select
  cases st.ret <;> simp [hc]

/-- The pass that takes the `ctx.Done()` case. -/
theorem Execute.select_done (st : Collect) (it : Iteration) (hp : st.ret = .pending)
    (hc : it.chosen = some .done) :
    Execute.select st it = st.leave (some (Error.New "timeout reached")) := by
  unfold Execute.select
  simp [hp, hc]

/-- The pass that takes the `abort` case. -/
theorem Execute.select_abort (st : Collect) (it : Iteration) (hp : st.ret = .pending)
    (hc : it.chosen = some .abort) :
    Execute.select st it =
      match it.abortErr with
      | some err =>
        { st with interrupts := st.interrupts + 1, abortCalls := st.abortCalls + 1,
                  cancelCalls := st.cancelCalls + 1,
                  ret := .returned (some (Error.Wrap err "failed to abort command on sigterm")) }
      | none =>
        if st.interrupts + 1 > 1 then
          { st with interrupts := st.interrupts + 1, abortCalls := st.abortCalls + 1,
                    cancelCalls := st.cancelCalls + 1,
                    ret := .returned (some (Error.New "interrupted by user")) }
        else { st with interrupts := st.interrupts + 1, abortCalls := st.abortCalls + 1 } := by
  unfold Execute.select
  simp only [hp, hc, Collect.leave]

/-- The pass that finds `out` closed. -/
theorem Execute.select_closed (st : Collect) (it : Iteration) (hp : st.ret = .pending)
    (hc : it.chosen = some .closed) :
    Execute.select st it = st.leave none := by
  unfold Execute.select
  simp [hp, hc]

/-- The pass that receives an outcome from `out`. -/
theorem Execute.select_output (st : Collect) (it : Iteration) (output : CommandOutput)
    (hp : st.ret = .pending) (hc : it.chosen = some (.output output)) :
    Execute.select st it =
      match (PrintCommandOutput st.stdout output).2 with
      | some err =>
        { st with stdout := (PrintCommandOutput st.stdout output).1,
                  printed := st.printed ++ [output],
                  cancelCalls := st.cancelCalls + 1,
                  ret := .returned (some (Error.Wrap err "failed to print output")) }
      | none =>
        { st with stdout := (PrintCommandOutput st.stdout output).1,
                  printed := st.printed ++ [output] } := by
  unfold Execute.select
  simp only [hp, hc, Collect.leave]
  rcases PrintCommandOutput st.stdout output with ⟨w, r⟩
  cases r <;> rfl

/-- With no deadline fired and no signal waiting, the `select` takes what
`out` offers. -/
theorem Iteration.chosen_quiet (it : Iteration) (hd : it.deadline = false)
    (hs : it.signal = false) :
    it.chosen = match it.out with
      | .idle => none
      | .value output => some (.output output)
      | .closed => some .closed := by
  unfold Iteration.chosen Iteration.ready
  rw [hd, hs]
  cases it.out <;> simp [Nat.mod_one]

/-- The `ctx.Done()` case is taken only once the deadline has fired. -/
theorem Iteration.deadline_of_chosen_done (it : Iteration) (hc : it.chosen = some .done) :
    it.deadline = true := by
  unfold Iteration.chosen at hc
  have hmem := List.getElem?_mem hc
  unfold Iteration.ready at hmem
  cases hd : it.deadline with
  | true => rfl
  | false =>
    rw [hd] at hmem
    cases hs : it.signal <;> cases ho : it.out <;> simp [hs, ho] at hmem

/-- While the loop entered by `Execute` is still waiting, it has printed the
outcomes it received, in order, every abort signal taken was followed by one
successful abort call, at most one was taken, and `cancel()` has not run. -/
theorem Execute.loop_pending_log (stdout : Writer) (pre : List Iteration)
    (h : (Execute.loop (Execute.enter stdout) pre).ret = .pending) :
    (Execute.loop (Execute.enter stdout) pre).printed = received pre ∧
    (Execute.loop (Execute.enter stdout) pre).abortCalls
      = (Execute.loop (Execute.enter stdout) pre).interrupts ∧
    (Execute.loop (Execute.enter stdout) pre).interrupts ≤ 1 ∧
    (Execute.loop (Execute.enter stdout) pre).cancelCalls = 0 := by
  induction pre using List.reverseRecOn with
  | nil => simp [Execute.loop, Execute.enter, received]
  | append_singleton pre it ih =>
    have hp := Execute.pending_before _ pre [it] h
    obtain ⟨i1, i2, i3, i4⟩ := ih hp
    have hstep : Execute.loop (Execute.enter stdout) (pre ++ [it])
        = Execute.select (Execute.loop (Execute.enter stdout) pre) it := by
      simp [Execute.loop, List.foldl_append]
    rw [hstep] at h ⊢
    have hrec : received (pre ++ [it]) = received pre ++ received [it] := by
      simp [received]
    rw [hrec]
    cases hc : it.chosen with
    | none =>
      rw [Execute.select_blocked _ it hc]
      simp [received, hc, i1, i2, i3, i4]
    | some r =>
      cases r with
      | done =>
        rw [Execute.select_done _ it hp hc] at h
        simp [Collect.leave] at h
      | closed =>
        rw [Execute.select_closed _ it hp hc] at h
        simp [Collect.leave] at h
      | abort =>
        rw [Execute.select_abort _ it hp hc] at h ⊢
        cases ha : it.abortErr with
        | some err => rw [ha] at h; simp at h
        | none =>
          rw [ha] at h
          simp only at h ⊢
          split at h
          · simp at h
          · rename_i hgt
            rw [if_neg hgt]
            simp only [received, hc, List.filterMap_cons, List.filterMap_nil, List.append_nil]
            refine ⟨i1, by rw [i2], by omega, i4⟩
      | output output =>
        rw [Execute.select_output _ it output hp hc] at h ⊢
        cases hpr : (PrintCommandOutput (Execute.loop (Execute.enter stdout) pre).stdout output).2 with
        | some err => rw [hpr] at h; simp at h
        | none =>
          simp only [received, hc, List.filterMap_cons, List.filterMap_nil]
          exact ⟨by rw [i1]; rfl, i2, i3, i4⟩

/-- Over passes in which no deadline has fired, no signal waits and `out` is
not closed, on a healthy standard output: the loop is still waiting, has
printed every outcome offered, in order, and has written their blocks. -/
theorem Execute.loop_quiet (stdout : Writer) (pre : List Iteration) (hw : stdout.Healthy)
    (hq : ∀ it ∈ pre, it.deadline = false ∧ it.signal = false ∧ it.out ≠ .closed) :
    (Execute.loop (Execute.enter stdout) pre).ret = .pending ∧
    (Execute.loop (Execute.enter stdout) pre).printed = offered pre ∧
    (Execute.loop (Execute.enter stdout) pre).stdout.written
      = stdout.written ++ (offered pre).flatMap CommandOutput.block ∧
    (Execute.loop (Execute.enter stdout) pre).stdout.Healthy ∧
    (Execute.loop (Execute.enter stdout) pre).abortCalls = 0 ∧
    (Execute.loop (Execute.enter stdout) pre).cancelCalls = 0 := by
  induction pre using List.reverseRecOn with
  | nil => simpa [Execute.loop, Execute.enter, offered] using hw
  | append_singleton pre it ih =>
    obtain ⟨j1, j2, j3, j4, j5, j6⟩ := ih (fun x hx => hq x (by simp [hx]))
    obtain ⟨q1, q2, q3⟩ := hq it (by simp)
    have hstep : Execute.loop (Execute.enter stdout) (pre ++ [it])
        = Execute.select (Execute.loop (Execute.enter stdout) pre) it := by
      simp [Execute.loop, List.foldl_append]
    have hoff : offered (pre ++ [it]) = offered pre ++ offered [it] := by
      simp [offered]
    have hc := Iteration.chosen_quiet it q1 q2
    rw [hstep, hoff]
    cases ho : it.out with
    | closed => exact absurd ho q3
    | idle =>
      rw [ho] at hc
      rw [Execute.select_blocked _ it hc]
      simp [offered, ho, j1, j2, j3, j4, j5, j6]
    | value output =>
      rw [ho] at hc
      rw [Execute.select_output _ it output j1 hc]
      obtain ⟨p1, p2, p3⟩ := PrintCommandOutput_healthy _ output j4
      rw [p1]
      simp only [offered, ho, List.filterMap_cons, List.filterMap_nil, List.flatMap_append,
        List.flatMap_singleton]
      refine ⟨j1, by rw [j2]; rfl, ?_, p3, j5, j6⟩
      rw [p2, j3]
      simp [offered]

/-- C1: in a run where the deadline does not fire, no AbortSignal arrives and
every write to the sink succeeds, a poll stream that offers the outcomes
o1..on and then closes `out` makes the collection loop of `Execute` hand
exactly o1..on to `PrintCommandOutput`, each once, in emission order, write
their blocks and nothing else to standard output, make no abort call, and
return nil; passes in which nothing is ready, and anything after the close,
change nothing. -/
theorem Execute_forwards_stream (stdout : Writer) (pre : List Iteration) (fin : Iteration)
    (rest : List Iteration) (hw : stdout.Healthy)
    (hq : ∀ it ∈ pre, it.deadline = false ∧ it.signal = false ∧ it.out ≠ .closed)
    (hd : fin.deadline = false) (hs : fin.signal = false) (hc : fin.out = .closed) :
    (Execute.loop (Execute.enter stdout) (pre ++ fin :: rest)).ret = .returned none ∧
    (Execute.loop (Execute.enter stdout) (pre ++ fin :: rest)).printed = offered pre ∧
    (Execute.loop (Execute.enter stdout) (pre ++ fin :: rest)).stdout.written
      = stdout.written ++ (offered pre).flatMap CommandOutput.block ∧
    (Execute.loop (Execute.enter stdout) (pre ++ fin :: rest)).abortCalls = 0 := by
  obtain ⟨j1, j2, j3, _, j5, _⟩ := Execute.loop_quiet stdout pre hw hq
  have hch := Iteration.chosen_quiet fin hd hs
  rw [hc] at hch
  rw [Execute.loop_step, Execute.select_closed _ fin j1 hch,
    Execute.loop_returned _ rest none rfl]
  exact ⟨rfl, j2, j3, j5⟩

/-- C2, as stated, fails: a run that takes two AbortSignals, with
`m.AbortCommand` succeeding on the first and failing on the second, makes
two abort calls and returns the abort error that wraps the failure, not the
user-abort error. -/
theorem Execute_second_abort_failure_counterexample :
    (Execute.loop (Execute.enter demoStdout)
        [passAbort none, passAbort (some (Error.New "throttled"))]).interrupts = 2 ∧
    (Execute.loop (Execute.enter demoStdout)
        [passAbort none, passAbort (some (Error.New "throttled"))]).abortCalls = 2 ∧
    (Execute.loop (Execute.enter demoStdout)
        [passAbort none, passAbort (some (Error.New "throttled"))]).ret
      = .returned (some (Error.Wrap (Error.New "throttled")
          "failed to abort command on sigterm")) ∧
    (Execute.loop (Execute.enter demoStdout)
        [passAbort none, passAbort (some (Error.New "throttled"))]).ret
      ≠ .returned (some (Error.New "interrupted by user")) := by
  decide

/-- C2, amended: on the second AbortSignal taken within one run the loop
calls `m.AbortCommand` a second time and returns at once; it returns the
user-abort error (`interrupted by user`) when that call succeeds and the
abort error wrapping the cause (`failed to abort command on sigterm`) when it
fails. Nothing is printed by that pass and whatever follows is ignored. -/
theorem Execute_second_abort (stdout : Writer) (pre : List Iteration) (it : Iteration)
    (rest : List Iteration)
    (hp : (Execute.loop (Execute.enter stdout) pre).ret = .pending)
    (hi : (Execute.loop (Execute.enter stdout) pre).interrupts = 1)
    (hc : it.chosen = some .abort) :
    (Execute.loop (Execute.enter stdout) (pre ++ it :: rest)).ret =
      (match it.abortErr with
       | none => .returned (some (Error.New "interrupted by user"))
       | some err => .returned (some (Error.Wrap err "failed to abort command on sigterm"))) ∧
    (Execute.loop (Execute.enter stdout) (pre ++ it :: rest)).interrupts = 2 ∧
    (Execute.loop (Execute.enter stdout) (pre ++ it :: rest)).abortCalls = 2 ∧
    (Execute.loop (Execute.enter stdout) (pre ++ it :: rest)).printed
      = (Execute.loop (Execute.enter stdout) pre).printed := by
  obtain ⟨_, l2, _, _⟩ := Execute.loop_pending_log stdout pre hp
  rw [Execute.loop_step, Execute.select_abort _ it hp hc]
  cases it.abortErr with
  | some err =>
    simp only
    rw [Execute.loop_returned _ rest _ rfl]
    simp [hi, l2]
  | none =>
    simp only [hi]
    rw [if_pos (by decide), Execute.loop_returned _ rest _ rfl]
    simp [hi, l2]

/-- C3, as stated, fails: in a pass where the deadline has fired and an
outcome is also waiting on `out`, the `select` may take the outcome, and the
loop prints it before it returns the timeout error in a later pass; likewise
it may take a waiting abort signal and make an abort call. -/
theorem Execute_deadline_not_authoritative_counterexample :
    (passDeadlineAndOutput (demoOutput "i-1")).deadline = true ∧
    (Execute.loop (Execute.enter demoStdout)
        [passDeadlineAndOutput (demoOutput "i-1"), passDeadline]).printed
      = [demoOutput "i-1"] ∧
    (Execute.loop (Execute.enter demoStdout)
        [passDeadlineAndOutput (demoOutput "i-1"), passDeadline]).ret
      = .returned (some (Error.New "timeout reached")) ∧
    passDeadlineAndAbort.deadline = true ∧
    (Execute.loop (Execute.enter demoStdout)
        [passDeadlineAndAbort, passDeadline]).abortCalls = 1 ∧
    (Execute.loop (Execute.enter demoStdout)
        [passDeadlineAndAbort, passDeadline]).ret
      = .returned (some (Error.New "timeout reached")) := by
  decide

/-- C3, amended: once the `select` of the collection loop takes the
`ctx.Done()` case, which it can only do after the deadline has fired, the
loop returns the timeout error (`timeout reached`) at once: that pass and
everything after it print no outcome and make no abort call, whatever
outcomes or abort signals are waiting. A pass in which the deadline has
fired and nothing else is ready always takes that case. -/
theorem Execute_timeout_once_taken (stdout : Writer) (pre : List Iteration) (it : Iteration)
    (rest : List Iteration)
    (hp : (Execute.loop (Execute.enter stdout) pre).ret = .pending) :
    (it.chosen = some .done →
      it.deadline = true ∧
      (Execute.loop (Execute.enter stdout) (pre ++ it :: rest)).ret
        = .returned (some (Error.New "timeout reached")) ∧
      (Execute.loop (Execute.enter stdout) (pre ++ it :: rest)).printed
        = (Execute.loop (Execute.enter stdout) pre).printed ∧
      (Execute.loop (Execute.enter stdout) (pre ++ it :: rest)).stdout
        = (Execute.loop (Execute.enter stdout) pre).stdout ∧
      (Execute.loop (Execute.enter stdout) (pre ++ it :: rest)).abortCalls
        = (Execute.loop (Execute.enter stdout) pre).abortCalls) ∧
    (it.deadline = true → it.signal = false → it.out = .idle → it.chosen = some .done) := by
  constructor
  · intro hc
    rw [Execute.loop_step, Execute.select_done _ it hp hc,
      Execute.loop_returned _ rest _ rfl]
    exact ⟨Iteration.deadline_of_chosen_done it hc, rfl, rfl, rfl, rfl⟩
  · intro hd hs ho
    simp [Iteration.chosen, Iteration.ready, hd, hs, ho, Nat.mod_one]

/-- C6: if `PrintCommandOutput` fails on the k-th outcome the collection loop
receives, the loop returns at once the sink error that wraps the failure
(`failed to print output`): the outcomes handed to `PrintCommandOutput` are
the k-1 received before, in order, followed by the k-th, once, and no outcome
of any later pass is printed, nor is anything written after the failed
call. -/
theorem Execute_sink_failure (stdout : Writer) (pre : List Iteration) (it : Iteration)
    (rest : List Iteration) (output : CommandOutput) (err : Error)
    (hp : (Execute.loop (Execute.enter stdout) pre).ret = .pending)
    (hc : it.chosen = some (.output output))
    (hf : (PrintCommandOutput (Execute.loop (Execute.enter stdout) pre).stdout output).2
      = some err) :
    (Execute.loop (Execute.enter stdout) (pre ++ it :: rest)).ret
      = .returned (some (Error.Wrap err "failed to print output")) ∧
    (Execute.loop (Execute.enter stdout) (pre ++ it :: rest)).printed
      = received pre ++ [output] ∧
    (Execute.loop (Execute.enter stdout) pre).printed = received pre ∧
    (Execute.loop (Execute.enter stdout) (pre ++ it :: rest)).stdout
      = (PrintCommandOutput (Execute.loop (Execute.enter stdout) pre).stdout output).1 := by
  obtain ⟨l1, _, _, _⟩ := Execute.loop_pending_log stdout pre hp
  rw [Execute.loop_step, Execute.select_output _ it output hp hc, hf]
  simp only
  rw [Execute.loop_returned _ rest _ rfl]
  exact ⟨rfl, by rw [l1], l1, rfl⟩

/-- C7: if `m.AbortCommand` fails when the first AbortSignal of a run is
handled, the collection loop returns at once the abort error that wraps the
cause (`failed to abort command on sigterm`): after one abort call, without
a second interrupt, and with no outcome of that or any later pass printed. -/
theorem Execute_first_abort_failure (stdout : Writer) (pre : List Iteration) (it : Iteration)
    (rest : List Iteration) (err : Error)
    (hp : (Execute.loop (Execute.enter stdout) pre).ret = .pending)
    (hi : (Execute.loop (Execute.enter stdout) pre).interrupts = 0)
    (hc : it.chosen = some .abort) (ha : it.abortErr = some err) :
    (Execute.loop (Execute.enter stdout) (pre ++ it :: rest)).ret
      = .returned (some (Error.Wrap err "failed to abort command on sigterm")) ∧
    (Execute.loop (Execute.enter stdout) (pre ++ it :: rest)).interrupts = 1 ∧
    (Execute.loop (Execute.enter stdout) (pre ++ it :: rest)).abortCalls = 1 ∧
    (Execute.loop (Execute.enter stdout) (pre ++ it :: rest)).printed
      = (Execute.loop (Execute.enter stdout) pre).printed ∧
    (Execute.loop (Execute.enter stdout) (pre ++ it :: rest)).stdout
      = (Execute.loop (Execute.enter stdout) pre).stdout := by
  obtain ⟨_, l2, _, _⟩ := Execute.loop_pending_log stdout pre hp
  rw [Execute.loop_step, Execute.select_abort _ it hp hc, ha]
  simp only
  rw [Execute.loop_returned _ rest _ rfl]
  simp [hi, l2]

/-- C10, the defect: `Execute` never tears the interrupt source down. The
goroutine of `interruptHandler` leaves its loop only when `sigterm` is
closed, and `sigterm` is closed only by a call deferred to that same return,
so whatever signals arrive and however `Execute` ends, the registration made
by `signal.Notify` stays in effect, `signal.Stop` is never called and `abort`
is never closed. The five runs are the five exit paths of the loop:
completion, timeout, double abort, abort failure and sink failure. -/
theorem Execute_never_stops_handler {Instance : Type} (command : RunDocumentCommand)
    (world : World Instance) (stdout : Writer) :
    (((Execute command world stdout).handler = none ∨
      (Execute command world stdout).handler = some (interruptHandler.run world.signals)) ∧
     (interruptHandler.run world.signals).notified = true ∧
     (interruptHandler.run world.signals).stopCalls = 0 ∧
     (interruptHandler.run world.signals).abortClosed = false ∧
     (interruptHandler.run world.signals).exited = false) ∧
    ((Execute demoCommand (demoWorld [] [passClosed]) demoStdout).collect.ret
        = .returned none ∧
      (Execute demoCommand (demoWorld [] [passClosed]) demoStdout).handler
        = some interruptHandler ∧
      interruptHandler.notified = true ∧ interruptHandler.stopCalls = 0 ∧
      interruptHandler.abortClosed = false) ∧
    ((Execute demoCommand (demoWorld [] [passDeadline]) demoStdout).collect.ret
        = .returned (some (Error.New "timeout reached")) ∧
      (Execute demoCommand (demoWorld [] [passDeadline]) demoStdout).handler
        = some interruptHandler) ∧
    ((Execute demoCommand
        (demoWorld [⟨1000, some 0, 0⟩, ⟨60000000, some 0, 0⟩] [passAbort none, passAbort none])
        demoStdout).collect.ret
        = .returned (some (Error.New "interrupted by user")) ∧
      ((Execute demoCommand
        (demoWorld [⟨1000, some 0, 0⟩, ⟨60000000, some 0, 0⟩] [passAbort none, passAbort none])
        demoStdout).handler.map fun h => (h.notified, h.stopCalls, h.abortClosed, h.delivered))
        = some (true, 0, false, [1000, 60000000])) ∧
    ((Execute demoCommand
        (demoWorld [⟨1000, some 0, 0⟩] [passAbort (some (Error.New "throttled"))])
        demoStdout).collect.ret
        = .returned (some (Error.Wrap (Error.New "throttled")
            "failed to abort command on sigterm")) ∧
      ((Execute demoCommand
        (demoWorld [⟨1000, some 0, 0⟩] [passAbort (some (Error.New "throttled"))])
        demoStdout).handler.map fun h => (h.notified, h.stopCalls, h.abortClosed, h.delivered))
        = some (true, 0, false, [1000])) ∧
    ((Execute demoCommand (demoWorld [] [passOutput (demoOutput "i-9")])
        demoBrokenStdout).collect.ret
        = .returned (some (Error.Wrap (Error.New "broken pipe") "failed to print output")) ∧
      (Execute demoCommand (demoWorld [] [passOutput (demoOutput "i-9")])
        demoBrokenStdout).handler = some interruptHandler) := by
  refine ⟨⟨?_, ?_⟩, ?_, ?_, ?_, ?_, ?_⟩
  · unfold Execute Execute.early
    split
    · exact Or.inl rfl
    · split
      · exact Or.inl rfl
      · split
        · exact Or.inl rfl
        · simp only
          split
          · exact Or.inl rfl
          · split
            · exact Or.inl rfl
            · exact Or.inr rfl
  · obtain ⟨_, h2, h3, h4, h5, _⟩ := interruptHandler.run_alive world.signals
    exact ⟨h3, h4, h5, h2⟩
  · decide
  · decide
  · decide
  · decide
  · decide

/-! ## Instances at concrete inputs -/

/-- C1 at the stream A, B, C: three records printed in that order, then
success. -/
theorem Execute_forwards_stream_witness :
    (Execute.loop (Execute.enter demoStdout)
        ([passOutput (demoOutput "A"), passOutput (demoOutput "B"),
          passOutput (demoOutput "C")] ++ passClosed :: [])).ret = .returned none ∧
    (Execute.loop (Execute.enter demoStdout)
        ([passOutput (demoOutput "A"), passOutput (demoOutput "B"),
          passOutput (demoOutput "C")] ++ passClosed :: [])).printed
      = [demoOutput "A", demoOutput "B", demoOutput "C"] ∧
    (Execute.loop (Execute.enter demoStdout)
        ([passOutput (demoOutput "A"), passOutput (demoOutput "B"),
          passOutput (demoOutput "C")] ++ passClosed :: [])).stdout.written
      = ["\nA - Success:\n", "ok\n", "\nB - Success:\n", "ok\n", "\nC - Success:\n", "ok\n"] ∧
    (Execute.loop (Execute.enter demoStdout)
        ([passOutput (demoOutput "A"), passOutput (demoOutput "B"),
          passOutput (demoOutput "C")] ++ passClosed :: [])).abortCalls = 0 :=
  Execute_forwards_stream demoStdout
    [passOutput (demoOutput "A"), passOutput (demoOutput "B"), passOutput (demoOutput "C")]
    passClosed [] (by simp [Writer.Healthy, demoStdout]) (by decide) rfl rfl rfl

/-- C2 amended, at two abort signals whose abort calls both succeed, which
gives the user-abort error, and at two whose second abort call fails, which
gives the abort error. -/
theorem Execute_second_abort_witness :
    ((Execute.loop (Execute.enter demoStdout) ([passAbort none] ++ passAbort none :: [])).ret
      = .returned (some (Error.New "interrupted by user")) ∧
    (Execute.loop (Execute.enter demoStdout)
        ([passAbort none] ++ passAbort none :: [])).interrupts = 2 ∧
    (Execute.loop (Execute.enter demoStdout)
        ([passAbort none] ++ passAbort none :: [])).abortCalls = 2 ∧
    (Execute.loop (Execute.enter demoStdout) ([passAbort none] ++ passAbort none :: [])).printed
      = []) ∧
    (Execute.loop (Execute.enter demoStdout)
        ([passAbort none] ++ passAbort (some (Error.New "throttled")) :: [])).ret
      = .returned (some (Error.Wrap (Error.New "throttled")
          "failed to abort command on sigterm")) :=
  ⟨Execute_second_abort demoStdout [passAbort none] (passAbort none) [] (by decide) (by decide)
      (by decide),
    (Execute_second_abort demoStdout [passAbort none] (passAbort (some (Error.New "throttled")))
      [] (by decide) (by decide) (by decide)).1⟩

/-- C3 amended, at a run that prints one record and then takes the deadline
while a second record waits: the second record is never printed. -/
theorem Execute_timeout_once_taken_witness :
    ((passDeadlineTaken (demoOutput "B")).deadline = true ∧
    (Execute.loop (Execute.enter demoStdout)
        ([passOutput (demoOutput "A")] ++
          passDeadlineTaken (demoOutput "B") :: [passOutput (demoOutput "B")])).ret
      = .returned (some (Error.New "timeout reached")) ∧
    (Execute.loop (Execute.enter demoStdout)
        ([passOutput (demoOutput "A")] ++
          passDeadlineTaken (demoOutput "B") :: [passOutput (demoOutput "B")])).printed
      = [demoOutput "A"] ∧
    (Execute.loop (Execute.enter demoStdout)
        ([passOutput (demoOutput "A")] ++
          passDeadlineTaken (demoOutput "B") :: [passOutput (demoOutput "B")])).stdout
      = { written := ["\nA - Success:\n", "ok\n"], script := [] } ∧
    (Execute.loop (Execute.enter demoStdout)
        ([passOutput (demoOutput "A")] ++
          passDeadlineTaken (demoOutput "B") :: [passOutput (demoOutput "B")])).abortCalls = 0) ∧
    passDeadline.chosen = some .done :=
  ⟨(Execute_timeout_once_taken demoStdout [passOutput (demoOutput "A")]
      (passDeadlineTaken (demoOutput "B")) [passOutput (demoOutput "B")] (by decide)).1
      (by decide),
    (Execute_timeout_once_taken demoStdout [] passDeadline [] (by decide)).2 rfl rfl rfl⟩

/-- C4 at the file `targets.json` with one explicit target, and at two
explicit targets without a file. -/
theorem setTargets_file_then_explicit_witness :
    ((setTargets demoResolver demoStdout ⟨["i-9", "i-1"], "targets.json"⟩).targets
        = ["i-1", "i-2", "i-9", "i-1"] ∧
      (setTargets demoResolver demoStdout ⟨["i-9", "i-1"], "targets.json"⟩).targets.length
        = 2 + 2) ∧
    ((setTargets demoResolver demoStdout ⟨["i-9", "i-9"], ""⟩).err = none ∧
      (setTargets demoResolver demoStdout ⟨["i-9", "i-9"], ""⟩).targets = ["i-9", "i-9"]) ∧
    (setTargets demoResolver demoStdout ⟨["i-9", "i-9"], ""⟩).targets = ["i-9", "i-9"] ∧
    (∃ content instances, demoResolver.ReadFile "targets.json" = .ok content ∧
      demoResolver.Unmarshal content = .ok instances ∧
      (setTargets demoResolver demoStdout ⟨["i-9", "i-1"], "targets.json"⟩).targets
        = instances.map demoResolver.ID ++ ["i-9", "i-1"]) :=
  ⟨(setTargets_file_then_explicit demoResolver demoStdout ⟨["i-9", "i-1"], "targets.json"⟩).1
      "[i-1 i-2]" ["i-1", "i-2"] (by decide) rfl rfl (by decide),
    (setTargets_file_then_explicit demoResolver demoStdout ⟨["i-9", "i-9"], ""⟩).2.2.1
      (by decide) (by decide),
    (setTargets_file_then_explicit demoResolver demoStdout ⟨["i-9", "i-9"], ""⟩).2.1
      (by decide) (by decide),
    (setTargets_file_then_explicit demoResolver demoStdout ⟨["i-9", "i-1"], "targets.json"⟩).2.2.2
      (by decide) (by decide)⟩

/-- C5 at a file that cannot be read, a file that does not parse, an empty
file without explicit targets, and no input at all. -/
theorem setTargets_error_cases_witness :
    (setTargets demoResolver demoStdout ⟨["i-9"], "missing.json"⟩).err
      = some (Error.New "no such file") ∧
    (setTargets demoResolver demoStdout ⟨["i-9"], "broken.json"⟩).err
      = some (Error.New "invalid character") ∧
    (setTargets demoResolver demoStdout ⟨[], "empty.json"⟩).err
      = some (Error.New "no targets set") ∧
    (setTargets demoResolver demoStdout ⟨[], ""⟩).err = some (Error.New "no targets set") ∧
    (setTargets demoResolver demoStdout ⟨[], ""⟩).targets = [] ∧
    (setTargets demoResolver demoStdout ⟨["i-9"], "empty.json"⟩).targets ≠ [] :=
  ⟨(setTargets_error_cases demoResolver demoStdout ⟨["i-9"], "missing.json"⟩).1
      (Error.New "no such file") (by decide) rfl,
    (setTargets_error_cases demoResolver demoStdout ⟨["i-9"], "broken.json"⟩).2.1
      "oops" (Error.New "invalid character") (by decide) rfl rfl,
    ((setTargets_error_cases demoResolver demoStdout ⟨[], "empty.json"⟩).2.2.1
      "[]" [] (by decide) rfl rfl).1 (by decide),
    ((setTargets_error_cases demoResolver demoStdout ⟨[], ""⟩).2.2.2.1 (by decide)).1
      (by decide),
    (setTargets_error_cases demoResolver demoStdout ⟨[], ""⟩).2.2.2.2.1 (by decide),
    (setTargets_error_cases demoResolver demoStdout ⟨["i-9"], "empty.json"⟩).2.2.2.2.2
      (by decide)⟩

/-- C6 at three records whose second cannot be written: the first two are
handed to `PrintCommandOutput`, the third never is. -/
theorem Execute_sink_failure_witness :
    (Execute.loop (Execute.enter { written := [], script := [none, none, some (Error.New "broken pipe")] })
        ([passOutput (demoOutput "A")] ++ passOutput (demoOutput "B")
          :: [passOutput (demoOutput "C"), passClosed])).ret
      = .returned (some (Error.Wrap (Error.New "broken pipe") "failed to print output")) ∧
    (Execute.loop (Execute.enter { written := [], script := [none, none, some (Error.New "broken pipe")] })
        ([passOutput (demoOutput "A")] ++ passOutput (demoOutput "B")
          :: [passOutput (demoOutput "C"), passClosed])).printed
      = [demoOutput "A"] ++ [demoOutput "B"] ∧
    (Execute.loop (Execute.enter { written := [], script := [none, none, some (Error.New "broken pipe")] })
        [passOutput (demoOutput "A")]).printed = [demoOutput "A"] ∧
    (Execute.loop (Execute.enter { written := [], script := [none, none, some (Error.New "broken pipe")] })
        ([passOutput (demoOutput "A")] ++ passOutput (demoOutput "B")
          :: [passOutput (demoOutput "C"), passClosed])).stdout
      = { written := ["\nA - Success:\n", "ok\n"], script := [] } :=
  Execute_sink_failure { written := [], script := [none, none, some (Error.New "broken pipe")] }
    [passOutput (demoOutput "A")] (passOutput (demoOutput "B"))
    [passOutput (demoOutput "C"), passClosed] (demoOutput "B") (Error.New "broken pipe")
    (by decide) (by decide) (by decide)

/-- C7 at a run that prints one record and whose first abort call fails
while more records wait. -/
theorem Execute_first_abort_failure_witness :
    (Execute.loop (Execute.enter demoStdout)
        ([passOutput (demoOutput "A")] ++ passAbort (some (Error.New "throttled"))
          :: [passOutput (demoOutput "B"), passAbort none])).ret
      = .returned (some (Error.Wrap (Error.New "throttled")
          "failed to abort command on sigterm")) ∧
    (Execute.loop (Execute.enter demoStdout)
        ([passOutput (demoOutput "A")] ++ passAbort (some (Error.New "throttled"))
          :: [passOutput (demoOutput "B"), passAbort none])).interrupts = 1 ∧
    (Execute.loop (Execute.enter demoStdout)
        ([passOutput (demoOutput "A")] ++ passAbort (some (Error.New "throttled"))
          :: [passOutput (demoOutput "B"), passAbort none])).abortCalls = 1 ∧
    (Execute.loop (Execute.enter demoStdout)
        ([passOutput (demoOutput "A")] ++ passAbort (some (Error.New "throttled"))
          :: [passOutput (demoOutput "B"), passAbort none])).printed = [demoOutput "A"] ∧
    (Execute.loop (Execute.enter demoStdout)
        ([passOutput (demoOutput "A")] ++ passAbort (some (Error.New "throttled"))
          :: [passOutput (demoOutput "B"), passAbort none])).stdout
      = { written := ["\nA - Success:\n", "ok\n"], script := [] } :=
  Execute_first_abort_failure demoStdout [passOutput (demoOutput "A")]
    (passAbort (some (Error.New "throttled"))) [passOutput (demoOutput "B"), passAbort none]
    (Error.New "throttled") (by decide) (by decide) (by decide) rfl

/-- C9 at a first signal, a second signal 10ms later and a third 60ms after
the first send was stamped: sent on, dropped, sent on. -/
theorem interruptHandler_filter_witness :
    (interruptHandler.run ([] ++ [⟨1000, some 5, 1⟩])).emitted = [] ++ [1000] ∧
    (interruptHandler.run ([⟨1000, some 5, 1⟩] ++ [⟨10001000, some 0, 0⟩])
        = interruptHandler.run [⟨1000, some 5, 1⟩]) ∧
    (interruptHandler.run ([⟨1000, some 5, 1⟩] ++ [⟨60001006, some 0, 0⟩])).emitted
        = [1000] ++ [60001006] ∧
    (interruptHandler.run [⟨1000, some 5, 1⟩, ⟨10001000, some 0, 0⟩]).emitted = [1000] :=
  ⟨((interruptHandler_filter.1 [] ⟨1000, some 5, 1⟩ (by decide)).1).2 (Or.inl rfl),
    (interruptHandler_filter.1 [⟨1000, some 5, 1⟩] ⟨10001000, some 0, 0⟩ (by decide)).2
      (by decide),
    ((interruptHandler_filter.1 [⟨1000, some 5, 1⟩] ⟨60001006, some 0, 0⟩ (by decide)).1).2
      (Or.inr ⟨1006, by decide, by decide⟩),
    (interruptHandler_filter.2 ⟨1000, some 5, 1⟩ ⟨10001000, some 0, 0⟩ (by decide)).2.1⟩

end SsmSh
